import Mathlib

/-!
Verification development for the audio-to-doc transcription service
(src/audio_to_text_service.py).

The Python source is embedded shallowly:
- machine floats are modelled as exact rationals;
- the external incremental speech decoder (vosk KaldiRecognizer) is an
  opaque collaborator; following spec section 4.3 it is modelled as a
  stateful byte-stream automaton whose emissions are determined by the
  bytes consumed so far;
- the filesystem and the audio codec are modelled as an explicit
  environment record, and stateful code is written as explicit state
  passing.
-/

/-! ### Python string primitives

The Python string operations the source uses (strip, split, lower,
endswith, join) are embedded as structurally recursive functions over
the character data of a String, so that every definition evaluates
inside the kernel. -/

/-- Python str.strip(): drop leading and trailing whitespace. -/
def pyStrip (s : String) : String :=
  ⟨((s.data.dropWhile Char.isWhitespace).reverse.dropWhile
      Char.isWhitespace).reverse⟩

/-- Python str.lower() (over the characters considered here). -/
def pyLower (s : String) : String :=
  ⟨s.data.map Char.toLower⟩

/-- Python str.endswith(suffix). -/
def pyEndsWith (s suffix : String) : Bool :=
  suffix.data.isSuffixOf s.data

/-- Token accumulator for Python str.split() with no argument. -/
def pyTokensAux : List Char → List Char → List String
  | [], acc => if acc.isEmpty then [] else [⟨acc.reverse⟩]
  | c :: cs, acc =>
    if c.isWhitespace then
      (if acc.isEmpty then [] else [⟨acc.reverse⟩]) ++ pyTokensAux cs []
    else pyTokensAux cs (c :: acc)

/-- Python ' '.join: interpose one space between the strings. -/
def joinWithSpace : List String → List Char
  | [] => []
  | [s] => s.data
  | s :: t :: r => s.data ++ ' ' :: joinWithSpace (t :: r)

/-- Splitting accumulator for Python str.split with a one-character
separator. -/
def pySplitOnCharAux (sep : Char) : List Char → List Char → List String
  | [], acc => [⟨acc.reverse⟩]
  | c :: cs, acc =>
    if c = sep then ⟨acc.reverse⟩ :: pySplitOnCharAux sep cs []
    else pySplitOnCharAux sep cs (c :: acc)

/-- Python str.split with a one-character separator. -/
def pySplitOnChar (sep : Char) (s : String) : List String :=
  pySplitOnCharAux sep s.data []

/-- Python '.'.join: interpose one dot between the strings. -/
def joinWithDot : List String → List Char
  | [] => []
  | [s] => s.data
  | s :: t :: r => s.data ++ '.' :: joinWithDot (t :: r)

/-- One recognized word with timestamps and a per-word confidence, as
extracted from a vosk result dict (keys word/start/end/conf,
src lines 266-271 and 284-290). -/
structure Word where
  word : String
  startT : ℚ
  endT : ℚ
  conf : ℚ
deriving DecidableEq, Repr

/-- One decoder hypothesis: the parsed JSON of a vosk Result() or
FinalResult() call. A missing text key is modelled as the empty string,
a missing result key as the empty word list. -/
structure Hyp where
  text : String
  result : List Word
deriving DecidableEq, Repr

/-- The incremental speech decoder (vosk KaldiRecognizer), an external
collaborator. Modelled per spec section 4.3 as a stateful automaton over
the PCM byte stream: consuming a byte may complete utterances and emit
their hypotheses; flush models FinalResult(), draining buffered audio
into one last hypothesis. -/
structure Decoder (σ : Type) where
  init : σ
  step : σ → Nat → σ × List Hyp
  flush : σ → Hyp

/-- Fuel-indexed body of chunkList; the fuel only serves structural
termination and is irrelevant once at least the list length. -/
def chunkListAux (cs : Nat) : Nat → List α → List (List α)
  | _, [] => []
  | 0, a :: l => [a :: l]
  | fuel + 1, a :: l =>
    if cs = 0 then [a :: l]
    else (a :: l).take cs :: chunkListAux cs fuel ((a :: l).drop cs)

/-- The chunking of the loop at src line 257
(for i in range(0, len(audio_bytes), chunk_size)): the byte list cut
into slices audio_bytes[i:i+cs]. -/
def chunkList (cs : Nat) (l : List α) : List (List α) :=
  chunkListAux cs l.length l

/-- Feed a list of bytes one at a time to the decoder, returning the final
decoder state and the hypotheses emitted in order. -/
def feedBytes (D : Decoder σ) : σ → List Nat → σ × List Hyp
  | s, [] => (s, [])
  | s, b :: bs =>
    let p := D.step s b
    let q := feedBytes D p.1 bs
    (q.1, p.2 ++ q.2)

/-- Feed a list of chunks in order (each chunk is one AcceptWaveform call
of the loop at src lines 257-276), collecting emitted hypotheses. -/
def feedChunks (D : Decoder σ) : σ → List (List Nat) → σ × List Hyp
  | s, [] => (s, [])
  | s, c :: cs =>
    let p := feedBytes D s c
    let q := feedChunks D p.1 cs
    (q.1, p.2 ++ q.2)

/-- The full streaming run of _transcribe_with_vosk for a given chunk
size: feed every chunk, then FinalResult() (src lines 257-290). The
final hypothesis is appended after all chunk hypotheses. -/
def voskRun (D : Decoder σ) (audioBytes : List Nat) (cs : Nat) : List Hyp :=
  let p := feedChunks D D.init (chunkList cs audioBytes)
  p.2 ++ [D.flush p.1]

/-- results accumulation of src lines 261-262 and 280-281: a hypothesis
text is appended only when non-empty. -/
def voskTexts (hyps : List Hyp) : List String :=
  (hyps.map Hyp.text).filter (fun t => t ≠ "")

/-- full_text = space-join of the collected texts, then strip
(src line 293). -/
def joinedText (hyps : List Hyp) : String :=
  pyStrip ⟨joinWithSpace (voskTexts hyps)⟩

/-- word_timestamps accumulation (src lines 264-271 and 283-290): word
entries of every hypothesis, in order, kept unconditionally. -/
def allWords (hyps : List Hyp) : List Word :=
  (hyps.map Hyp.result).flatten

/-- Python str.split() with no argument: split on whitespace runs,
dropping empty tokens (src line 300, full_text.split()). -/
def pySplitWs (s : String) : List String :=
  pyTokensAux s.data []

/-- The successful payload of _transcribe_with_vosk: (full_text,
avg_confidence, word_timestamps) of src line 305. -/
structure VoskOut where
  text : String
  confidence : ℚ
  wordTimestamps : List Word
deriving DecidableEq, Repr

/-- Embedding of _transcribe_with_vosk (src lines 234-310) with the fixed chunk_size
8000 of src line 251. On empty joined text the raise at src line 307 is
re-wrapped by the handler at src lines 309-310, so the propagated message
carries the prefix of that handler. -/
def transcribeWithVosk (D : Decoder σ) (audioBytes : List Nat) :
    Except String VoskOut :=
  let hyps := voskRun D audioBytes 8000
  let fullText := joinedText hyps
  let words := allWords hyps
  if fullText ≠ "" then
    let conf : ℚ :=
      if words ≠ [] then
        ((words.map Word.conf).sum) / (words.length : ℚ)
      else
        min 0.8 (0.5 + ((pySplitWs fullText).length : ℚ) * 0.05)
    Except.ok ⟨fullText, conf, words⟩
  else
    Except.error "Vosk recognition error: No speech detected in audio"

/-! ## Model cache (ModelCache, src lines 82-95) -/

/-- A loaded vosk model instance: the path it was loaded from together
with a load sequence number, so that two distinct loads of the same path
are distinct instances. -/
structure Model where
  path : String
  loadSeq : Nat
deriving DecidableEq, Repr

/-- VOSK_MODELS (src lines 60-63): fixed per-locale model paths. -/
def VOSK_MODELS : List (String × String) :=
  [("es-ES", "/app/models/vosk-model-small-es-0.42"),
   ("en-US", "/app/models/vosk-model-small-en-us-0.15")]

/-- self.models plus a load counter that numbers model instances. -/
structure CacheState where
  models : List (String × Model)
  loadCount : Nat
deriving DecidableEq, Repr

/-- The cache of a fresh AudioToTextConverter (src line 76). -/
def emptyCache : CacheState := ⟨[], 0⟩

/-- Embedding of _get_vosk_model (src lines 82-95). Returns the model, the updated
cache, and whether a load was performed; errors are the raised
exception messages of src lines 85 and 90. fsExists models
os.path.exists. Note the path-existence check happens only on a cache
miss (src lines 87-89). -/
def getVoskModel (fsExists : String → Bool) (st : CacheState)
    (langCode : String) : Except String (Model × CacheState × Bool) :=
  match VOSK_MODELS.lookup langCode with
  | none => Except.error ("No Vosk model available for language " ++ langCode)
  | some modelPath =>
    match st.models.lookup langCode with
    | some m => Except.ok (m, st, false)
    | none =>
      if fsExists modelPath then
        let m : Model := ⟨modelPath, st.loadCount⟩
        Except.ok (m, ⟨st.models ++ [(langCode, m)], st.loadCount + 1⟩, true)
      else
        Except.error ("Model path not found: " ++ modelPath)

/-! ## transcribe_audio (src lines 163-232) -/

/-- A speaker segment as produced by the (disabled) diarization path and
consumed by create_word_document (src lines 358-366, 440-468). -/
structure Segment where
  speaker : String
  startTime : ℚ
  endTime : ℚ
  duration : ℚ
  text : String
  confidence : ℚ
  wordTimestamps : List Word
deriving DecidableEq, Repr

/-- The result dict of transcribe_audio (src lines 165-171 plus the keys
set later). An Option field with value none models an absent key, except
for error and languageDetected whose keys are always present (src lines
169-170) with a possibly-None value. -/
structure TResult where
  success : Bool
  text : String
  confidence : ℚ
  languageDetected : Option String
  error : Option String
  supportedLanguages : Option (List String)
  note : Option String
  serviceUsed : Option String
  wordTimestamps : Option (List Word)
  speakerSegments : Option (List Segment)
  fileSize : Option Nat
deriving DecidableEq, Repr

/-- The initial result dict of src lines 165-171. -/
def initResult : TResult :=
  { success := false, text := "", confidence := 0, languageDetected := none,
    error := none, supportedLanguages := none, note := none,
    serviceUsed := none, wordTimestamps := none, speakerSegments := none,
    fileSize := none }

/-- LANGUAGE_MAPPING (src lines 53-57): supported language names to
locale codes; auto maps to Python None. -/
def LANGUAGE_MAPPING : List (String × Option String) :=
  [("spanish", some "es-ES"), ("english", some "en-US"), ("auto", none)]

/-- audio_path.lower().endswith that decides whether a temp WAV is
needed (src line 176). -/
def pathIsWav (p : String) : Bool := pyEndsWith (pyLower p) ".wav"

/-- The environment of external effects one transcribe_audio call can
observe: the outcome of convert_audio_to_wav (src lines 135-161, True or
False), the outcome of loading the WAV with speech_recognition (src
lines 183-186, audio bytes or a raised exception message), the
filesystem for the model paths, and the decoder the loaded model
yields. -/
structure Env (σ : Type) where
  convertOk : Bool
  recordAudio : Except String (List Nat)
  fsExists : String → Bool
  decoder : Decoder σ

/-- What one transcribe_audio call produced: the result dict, the cache
it leaves, whether the temporary canonical WAV for a non-WAV input was
created, and whether the cleanup of src lines 224-226 ran for it. -/
structure TranscribeOut where
  result : TResult
  cache : CacheState
  tempWavCreated : Bool
  tempWavDeleted : Bool

/-- The error message of src line 194. -/
def unsupportedLanguageMsg (language : String) : String :=
  "Language \x27" ++ language ++
    "\x27 is not supported. Supported languages: spanish, english, auto"

/-- transcribe_audio (src lines 163-232). Every raise site inside the
function body lies inside its outer try whose handler (src lines
228-230) stores the message into the result, so the embedding is a total
function into TranscribeOut; no exception reaches the caller. The
cleanup of the temp WAV (src lines 224-226) sits inside the try, before
the handler: the branch for a failure at src lines 183-186 therefore
returns with tempWavDeleted = false. -/
def transcribeAudio (env : Env σ) (st : CacheState)
    (audioPath : String) (language : String) : TranscribeOut :=
  let needsConvert := ¬ pathIsWav audioPath
  if needsConvert ∧ env.convertOk = false then
    -- src lines 178-180: conversion failed, early return, no temp WAV
    { result := { initResult with
        error := some "Failed to convert audio to WAV format" },
      cache := st, tempWavCreated := false, tempWavDeleted := false }
  else
    match env.recordAudio with
    | Except.error e =>
      -- raise inside src lines 183-186: jumps to the handler at src
      -- line 228; the cleanup at src lines 224-226 is skipped
      { result := { initResult with error := some e },
        cache := st, tempWavCreated := needsConvert,
        tempWavDeleted := false }
    | Except.ok audioBytes =>
      match LANGUAGE_MAPPING.lookup (pyLower language) with
      | none =>
        -- src lines 193-196: unsupported language
        { result := { initResult with
            error := some (unsupportedLanguageMsg language),
            supportedLanguages := some ["spanish", "english", "auto"],
            note := some "For other languages, consider using online speech recognition services." },
          cache := st, tempWavCreated := needsConvert,
          tempWavDeleted := needsConvert }
      | some langCode0 =>
        -- src lines 198-203: auto (mapped to None) defaults to en-US
        let langCode := langCode0.getD "en-US"
        match getVoskModel env.fsExists st langCode with
        | Except.error e =>
          -- caught by the inner handler, src lines 216-218
          { result := { initResult with
              error := some ("Speech recognition failed: " ++ e) },
            cache := st, tempWavCreated := needsConvert,
            tempWavDeleted := needsConvert }
        | Except.ok (_, st2, _) =>
          match transcribeWithVosk env.decoder audioBytes with
          | Except.error e =>
            { result := { initResult with
                error := some ("Speech recognition failed: " ++ e) },
              cache := st2, tempWavCreated := needsConvert,
              tempWavDeleted := needsConvert }
          | Except.ok v =>
            if v.text ≠ "" ∧ pyStrip v.text ≠ "" then
              -- src lines 206-213
              { result := { initResult with
                  success := true, text := pyStrip v.text,
                  confidence := v.confidence,
                  serviceUsed := some "vosk",
                  languageDetected := some langCode,
                  note := some ("Transcribed using Vosk model for " ++ langCode),
                  wordTimestamps := some v.wordTimestamps },
                cache := st2, tempWavCreated := needsConvert,
                tempWavDeleted := needsConvert }
            else
              -- src lines 214-215
              { result := { initResult with
                  error := some "No speech detected in audio. Try speaking more clearly or check if the audio contains speech." },
                cache := st2, tempWavCreated := needsConvert,
                tempWavDeleted := needsConvert }

/-- Embedding of _transcribe_with_speakers (src lines 312-391). Src line 315 returns
self.transcribe_audio(audio_path, language) unconditionally; the
diarization code below it (src lines 317-391) is unreachable and is
modelled as an arbitrary alternative computation the function never
consults. -/
def transcribeWithSpeakers (env : Env σ) (st : CacheState)
    (_deadDiarizationPath : Env σ → CacheState → String → String → TranscribeOut)
    (audioPath : String) (language : String) : TranscribeOut :=
  transcribeAudio env st audioPath language

/-! ## create_word_document (src lines 393-497) -/

/-- Round half to even, the rounding of Python % .2f formatting. -/
def roundHalfEven (q : ℚ) : ℤ :=
  let f := ⌊q⌋
  let frac := q - f
  if frac < 1/2 then f
  else if frac > 1/2 then f + 1
  else if f % 2 = 0 then f else f + 1

/-- Decimal rendering of n with two digits. -/
def padTwo (n : Nat) : String :=
  if n < 10 then "0" ++ toString n else toString n

/-- Python f-string :.2f formatting on an exact rational. -/
def fmt2 (q : ℚ) : String :=
  let n := roundHalfEven (q * 100)
  let a := n.natAbs
  (if n < 0 then "-" else "") ++ toString (a / 100) ++ "." ++ padTwo (a % 100)

/-- Python f-string :.1f formatting on an exact rational. -/
def fmt1 (q : ℚ) : String :=
  let n := roundHalfEven (q * 10)
  let a := n.natAbs
  (if n < 0 then "-" else "") ++ toString (a / 10) ++ "." ++ toString (a % 10)

/-- One content element of the generated docx, by provenance:
title src line 400, headings src lines 403/430/438/454, the metadata
table src lines 406-427, per-segment paragraphs src lines 442-451, the
flat transcript paragraph src line 471, the note src line 475, the
failure notice src lines 478-480 (rendered as a bold label
Transcription Failed: followed by the error text), and the footer src
lines 483-485. -/
inductive Block where
  | title (text : String)
  | heading (text : String) (level : Nat)
  | metaTable (rows : List (String × String))
  | speakerHeader (speaker : String) (startTime endTime duration : ℚ)
  | transcriptText (text : String)
  | confidenceLine (text : String)
  | spacer
  | summaryTable (rows : List (List String))
  | notePara (text : String)
  | failureNotice (errText : String)
  | footer (text : String)
deriving DecidableEq, Repr

/-- The metadata rows of src lines 415-422. The language_detected key is
always present, so a Python None value renders as the string None; the
service_used key is absent until success, so .get applies its Unknown
default. -/
def metadataRows (r : TResult) (originalFilename now : String) :
    List (String × String) :=
  [("Original File", originalFilename),
   ("Transcription Date", now),
   ("Service Used", r.serviceUsed.getD "Unknown"),
   ("Language Detected",
     match r.languageDetected with | some s => s | none => "None"),
   ("Confidence Score", fmt2 r.confidence),
   ("File Size", fmt2 (((r.fileSize.getD 0 : ℚ)) / 1024 / 1024) ++ " MB")]

/-- The four paragraphs per speaker segment, src lines 442-451. -/
def segmentBlocks (seg : Segment) : List Block :=
  [Block.speakerHeader seg.speaker seg.startTime seg.endTime seg.duration,
   Block.transcriptText seg.text,
   Block.confidenceLine ("Confidence: " ++ fmt2 seg.confidence),
   Block.spacer]

/-- One row of the speaker summary table, src lines 463-468. -/
def summaryRow (seg : Segment) : List String :=
  [seg.speaker, fmt1 seg.duration,
   toString (pySplitWs seg.text).length, fmt2 seg.confidence]

/-- create_word_document (src lines 393-497) as the ordered list of
content blocks it adds to the document. now stands for
datetime.now().strftime of src line 417. -/
def createWordDocument (r : TResult) (originalFilename now : String) :
    List Block :=
  [Block.title "Audio Transcription Report",
   Block.heading "Document Information" 1,
   Block.metaTable (metadataRows r originalFilename now),
   Block.heading "Transcription" 1]
  ++ (if r.success then
        (match r.speakerSegments.getD [] with
         | [] => [Block.transcriptText r.text]
         | seg :: segs =>
           [Block.heading "Speaker-Based Transcription" 2]
           ++ ((seg :: segs).map segmentBlocks).flatten
           ++ [Block.heading "Speaker Summary" 2,
               Block.summaryTable ((seg :: segs).map summaryRow)])
        ++ (match r.note with
            | some n => if n ≠ "" then [Block.notePara ("Note: " ++ n)] else []
            | none => [])
      else
        [Block.failureNotice (r.error.getD "Unknown error")])
  ++ [Block.spacer,
      Block.footer "Generated by Audio to Text Conversion Service (Offline)"]

/-! ## The /api/convert route (convert_audio, src lines 509-577) -/

/-- SUPPORTED_FORMATS keys (src lines 39-49). -/
def SUPPORTED_FORMAT_KEYS : List String :=
  ["mp3", "wav", "aac", "m4a", "ogg", "flac", "wma", "mp4", "webm"]

/-- os.path.splitext extension, lowercased, leading dot stripped (src
line 534). Empty when the name has no dot-separated extension. -/
def fileExt (name : String) : String :=
  match pySplitOnChar '.' name with
  | [] => ""
  | [_] => ""
  | parts => pyLower (parts.getLastD "")

/-- os.path.splitext base name (src line 559). -/
def stripExtension (name : String) : String :=
  match pySplitOnChar '.' name with
  | [] => name
  | [_] => name
  | parts => ⟨joinWithDot parts.dropLast⟩

/-- The multipart request as seen by convert_audio: presence of the
audio_file part, its filename and byte size, and the optional language
form field (absent defaults to auto, src line 530). secure_filename is
modelled as the identity on the names considered here. -/
structure UploadRequest where
  hasFile : Bool
  filename : String
  fileSize : Nat
  language : Option String

/-- The response of convert_audio: a JSON error with an HTTP status, or
the generated document served as an attachment. -/
inductive ConvertResponse where
  | jsonError (status : Nat) (message : String)
  | docxDownload (downloadName : String) (blocks : List Block)
deriving DecidableEq, Repr

/-- The 25MB limit of src line 526. -/
def MAX_UPLOAD_BYTES : Nat := 25 * 1024 * 1024

/-- The oversize error body of src line 527. -/
def fileTooLargeMsg : String :=
  "File too large. Maximum size is 25MB. Please use a smaller audio file."

/-- convert_audio (src lines 509-577). The second component records
whether converter.transcribe_audio was invoked for the request. The
saved temp path of src lines 542-543 carries the upload extension, so a
fixed base name stands in for the random uuid. -/
def convertAudio (env : Env σ) (st : CacheState) (now : String)
    (req : UploadRequest) : ConvertResponse × Bool :=
  if req.hasFile = false then
    (ConvertResponse.jsonError 400 "No audio file provided", false)
  else if req.filename = "" then
    (ConvertResponse.jsonError 400 "No file selected", false)
  else if req.fileSize > MAX_UPLOAD_BYTES then
    (ConvertResponse.jsonError 400 fileTooLargeMsg, false)
  else
    let language := req.language.getD "auto"
    let ext := fileExt req.filename
    if (SUPPORTED_FORMAT_KEYS.contains ext) = false then
      (ConvertResponse.jsonError 400
        ("Unsupported file format: " ++ ext ++
         ". Supported formats: mp3, wav, aac, m4a, ogg, flac, wma, mp4, webm"),
       false)
    else
      let tempPath := "upload." ++ ext
      let o := transcribeAudio env st tempPath language
      let r := { o.result with fileSize := some req.fileSize }
      let blocks := createWordDocument r req.filename now
      (ConvertResponse.docxDownload
        (stripExtension req.filename ++ "_transcription.docx") blocks, true)

/-! ## Helper lemmas -/

theorem feedBytes_append (D : Decoder σ) (s : σ) (l1 l2 : List Nat) :
    feedBytes D s (l1 ++ l2) =
      ((feedBytes D (feedBytes D s l1).1 l2).1,
       (feedBytes D s l1).2 ++ (feedBytes D (feedBytes D s l1).1 l2).2) := by
  induction l1 generalizing s with
  | nil => simp [feedBytes]
  | cons b bs ih => simp [feedBytes, ih]

theorem chunkListAux_congr (cs : Nat) :
    ∀ (f1 : Nat) (l : List α) (f2 : Nat), l.length ≤ f1 → l.length ≤ f2 →
      chunkListAux cs f1 l = chunkListAux cs f2 l := by
  intro f1
  induction f1 with
  | zero =>
    intro l f2 h1 _h2
    have hnil : l = [] := List.length_eq_zero.mp (Nat.le_zero.mp h1)
    subst hnil
    cases f2 <;> rfl
  | succ f ih =>
    intro l f2 h1 h2
    cases l with
    | nil => cases f2 <;> rfl
    | cons a t =>
      cases f2 with
      | zero => exact absurd h2 (by simp)
      | succ f2 =>
        simp only [chunkListAux]
        by_cases hcs : cs = 0
        · simp [hcs]
        · rw [if_neg hcs, if_neg hcs]
          congr 1
          have hc : 1 ≤ cs := Nat.one_le_iff_ne_zero.mpr hcs
          apply ih
          · simp only [List.length_drop, List.length_cons] at h1 ⊢
            omega
          · simp only [List.length_drop, List.length_cons] at h2 ⊢
            omega

theorem chunkList_cons (cs : Nat) (hcs : cs ≠ 0) (a : α) (l : List α) :
    chunkList cs (a :: l) =
      (a :: l).take cs :: chunkList cs ((a :: l).drop cs) := by
  unfold chunkList
  simp only [List.length_cons, chunkListAux]
  rw [if_neg hcs]
  congr 1
  have hc : 1 ≤ cs := Nat.one_le_iff_ne_zero.mpr hcs
  apply chunkListAux_congr
  · simp only [List.length_drop, List.length_cons]
    omega
  · exact le_rfl

theorem feedChunks_chunkList (D : Decoder σ) (cs : Nat) (hcs : 0 < cs) :
    ∀ (n : Nat) (s : σ) (l : List Nat), l.length ≤ n →
      feedChunks D s (chunkList cs l) = feedBytes D s l := by
  intro n
  induction n with
  | zero =>
    intro s l hl
    have hnil : l = [] := List.length_eq_zero.mp (Nat.le_zero.mp hl)
    subst hnil
    simp [chunkList, chunkListAux, feedChunks, feedBytes]
  | succ n ih =>
    intro s l hl
    cases l with
    | nil => simp [chunkList, chunkListAux, feedChunks, feedBytes]
    | cons a t =>
      rw [chunkList_cons cs (Nat.pos_iff_ne_zero.mp hcs)]
      simp only [feedChunks]
      have hlen : ((a :: t).drop cs).length ≤ n := by
        have hc : 1 ≤ cs := Nat.one_le_iff_ne_zero.mpr (Nat.pos_iff_ne_zero.mp hcs)
        simp only [List.length_drop, List.length_cons]
        simp only [List.length_cons] at hl
        omega
      rw [ih (feedBytes D s ((a :: t).take cs)).1 ((a :: t).drop cs) hlen]
      rw [← feedBytes_append, List.take_append_drop]

theorem voskRun_eq_unchunked (D : Decoder σ) (bytes : List Nat) (cs : Nat)
    (h : 0 < cs) :
    voskRun D bytes cs =
      (feedBytes D D.init bytes).2 ++ [D.flush (feedBytes D D.init bytes).1] := by
  unfold voskRun
  rw [feedChunks_chunkList D cs h bytes.length D.init bytes le_rfl]

/-- A decoder that buffers everything and emits a fixed final hypothesis
carrying text but no per-word entries. -/
def textOnlyDecoder : Decoder Unit :=
  ⟨(), fun s _ => (s, []), fun _ => ⟨"hello world", []⟩⟩

/-- A decoder that never emits anything. -/
def silentDecoder : Decoder Unit :=
  ⟨(), fun s _ => (s, []), fun _ => ⟨"", []⟩⟩

/-- A byte-counting decoder with data-dependent emissions, used to
exercise the chunk-size independence theorem. -/
def parityDecoder : Decoder Nat :=
  ⟨0, fun s b => (s + 1, if (s + b) % 2 = 0 then [⟨"x", [⟨"x", 0, 1, 1⟩]⟩] else []),
   fun s => ⟨toString s, []⟩⟩

/-! ## Claim theorems -/

/-- C1: when _transcribe_with_vosk succeeds (non-empty joined text) with
zero word timestamps, the returned confidence is exactly
min(0.8, 0.5 + 0.05 x wordCount) where wordCount is the number of
whitespace-delimited tokens of the final joined text (src line 300). -/
theorem confidence_fallback_exact (D : Decoder σ) (audioBytes : List Nat)
    (v : VoskOut) (h : transcribeWithVosk D audioBytes = Except.ok v)
    (hw : v.wordTimestamps = []) :
    v.confidence = min 0.8 (0.5 + ((pySplitWs v.text).length : ℚ) * 0.05) := by
  simp only [transcribeWithVosk] at h
  by_cases hT : joinedText (voskRun D audioBytes 8000) = ""
  · rw [if_neg (by simpa using hT)] at h
    exact absurd h (by simp)
  · rw [if_pos hT] at h
    injection h with h1
    subst h1
    simp only [VoskOut.wordTimestamps] at hw
    simp [hw]

/-- The successful payload of the textOnlyDecoder run on empty audio. -/
def textOnlyRunOut : VoskOut :=
  match transcribeWithVosk textOnlyDecoder [] with
  | Except.ok v => v
  | Except.error _ => ⟨"", 0, []⟩

/-- C1 witness: a run whose decoder yields the text hello world and no
word entries gets the fallback confidence of its two-token text. -/
theorem confidence_fallback_exact_witness :
    textOnlyRunOut.confidence =
      min 0.8 (0.5 + ((pySplitWs textOnlyRunOut.text).length : ℚ) * 0.05) :=
  confidence_fallback_exact textOnlyDecoder [] textOnlyRunOut rfl rfl

/-- C4: the text produced by the streaming recognition step does not
depend on the chunk size: for every byte stream and any two positive
chunk sizes, running the loop of src lines 257-293 with either size
yields the same joined text. -/
theorem chunk_size_independent (D : Decoder σ) (bytes : List Nat)
    (cs1 cs2 : Nat) (h1 : 0 < cs1) (h2 : 0 < cs2) :
    joinedText (voskRun D bytes cs1) = joinedText (voskRun D bytes cs2) := by
  rw [voskRun_eq_unchunked D bytes cs1 h1, voskRun_eq_unchunked D bytes cs2 h2]

/-- C4 witness: a data-dependent decoder over five bytes, chunk sizes 2
and 3. -/
theorem chunk_size_independent_witness :
    joinedText (voskRun parityDecoder [0, 1, 2, 3, 4] 2) =
      joinedText (voskRun parityDecoder [0, 1, 2, 3, 4] 3) :=
  chunk_size_independent parityDecoder [0, 1, 2, 3, 4] 2 3
    (by decide) (by decide)

/-- C10: _transcribe_with_speakers returns exactly the result of
transcribe_audio on the same arguments, whatever the bypassed
diarization code would have computed (src line 315 returns
unconditionally, so src lines 317-391 are dead). -/
theorem speakers_equals_transcribe (env : Env σ) (st : CacheState)
    (dead : Env σ → CacheState → String → String → TranscribeOut)
    (audioPath language : String) :
    transcribeWithSpeakers env st dead audioPath language =
      transcribeAudio env st audioPath language := rfl

/-- Case analysis over every return path of transcribe_audio,
generalized over the output: a failed result always carries an error
message, and a successful result always carries the non-empty trimmed
text of the engine. -/
theorem transcribeAudio_cases (env : Env σ) (st : CacheState)
    (path lang : String) :
    ∀ o : TranscribeOut, transcribeAudio env st path lang = o →
      (o.result.success = false → ∃ e, o.result.error = some e)
      ∧ (o.result.success = true → o.result.text ≠ "") := by
  intro o ho
  simp only [transcribeAudio] at ho
  by_cases hc : (¬ pathIsWav path = true ∧ env.convertOk = false)
  · rw [if_pos hc] at ho
    subst ho
    exact ⟨fun _ => ⟨_, rfl⟩, fun hs => absurd hs (by simp [initResult])⟩
  · rw [if_neg hc] at ho
    cases henv : env.recordAudio with
    | error e =>
      simp only [henv] at ho
      subst ho
      exact ⟨fun _ => ⟨_, rfl⟩, fun hs => absurd hs (by simp [initResult])⟩
    | ok bytes =>
      simp only [henv] at ho
      cases hlook : LANGUAGE_MAPPING.lookup (pyLower lang) with
      | none =>
        simp only [hlook] at ho
        subst ho
        exact ⟨fun _ => ⟨_, rfl⟩, fun hs => absurd hs (by simp [initResult])⟩
      | some lc0 =>
        simp only [hlook] at ho
        cases hg : getVoskModel env.fsExists st (lc0.getD "en-US") with
        | error e =>
          simp only [hg] at ho
          subst ho
          exact ⟨fun _ => ⟨_, rfl⟩, fun hs => absurd hs (by simp [initResult])⟩
        | ok trip =>
          obtain ⟨m, st2, b⟩ := trip
          simp only [hg] at ho
          cases hv : transcribeWithVosk env.decoder bytes with
          | error e =>
            simp only [hv] at ho
            subst ho
            exact ⟨fun _ => ⟨_, rfl⟩, fun hs => absurd hs (by simp [initResult])⟩
          | ok v =>
            simp only [hv] at ho
            by_cases ht : (v.text ≠ "" ∧ pyStrip v.text ≠ "")
            · rw [if_pos ht] at ho
              subst ho
              exact ⟨fun hs => absurd hs (by simp), fun _ => ht.2⟩
            · rw [if_neg ht] at ho
              subst ho
              exact ⟨fun _ => ⟨_, rfl⟩, fun hs => absurd hs (by simp [initResult])⟩

/-- The two transcribe_audio result invariants, stated of the call
itself. -/
theorem transcribeAudio_invariants (env : Env σ) (st : CacheState)
    (path lang : String) :
    ((transcribeAudio env st path lang).result.success = false →
      ∃ e, (transcribeAudio env st path lang).result.error = some e)
    ∧ ((transcribeAudio env st path lang).result.success = true →
      (transcribeAudio env st path lang).result.text ≠ "") :=
  transcribeAudio_cases env st path lang (transcribeAudio env st path lang) rfl

/-- C3: on empty concatenated trimmed text the engine call fails with
the distinct no-speech error (the message the repository itself matches
on to tell no-speech apart from other recognition errors) instead of
returning success with empty text; and consequently every
transcribe_audio result with success = true has non-empty text. -/
theorem no_speech_distinct_error (σ : Type) :
    (∀ (D : Decoder σ) (bytes : List Nat),
        joinedText (voskRun D bytes 8000) = "" →
        transcribeWithVosk D bytes =
          Except.error "Vosk recognition error: No speech detected in audio")
    ∧ (∀ (env : Env σ) (st : CacheState) (path lang : String),
        (transcribeAudio env st path lang).result.success = true →
        (transcribeAudio env st path lang).result.text ≠ "") := by
  constructor
  · intro D bytes hempty
    simp only [transcribeWithVosk]
    rw [if_neg (by simpa using hempty)]
  · intro env st path lang
    exact (transcribeAudio_invariants env st path lang).2

theorem lookup_append_of_none [BEq α] (l1 l2 : List (α × β)) (a : α)
    (h : l1.lookup a = none) : (l1 ++ l2).lookup a = l2.lookup a := by
  induction l1 with
  | nil => rfl
  | cons p t ih =>
    obtain ⟨k, v⟩ := p
    simp only [List.lookup, List.cons_append] at h ⊢
    cases hak : (a == k) with
    | true =>
      rw [hak] at h
      exact Option.noConfusion h
    | false =>
      rw [hak] at h
      exact ih h

theorem lookup_append_of_some [BEq α] (l1 l2 : List (α × β)) (a : α) (m : β)
    (h : l1.lookup a = some m) : (l1 ++ l2).lookup a = some m := by
  induction l1 with
  | nil => exact absurd h (by simp [List.lookup])
  | cons p t ih =>
    obtain ⟨k, v⟩ := p
    simp only [List.lookup, List.cons_append] at h ⊢
    cases hak : (a == k) with
    | true =>
      rw [hak] at h
      exact h
    | false =>
      rw [hak] at h
      exact ih h

/-- C5 as amended: (i) a successful call leaves its model cached under
its locale code, and a later call on that state returns the very same
model instance without loading; (ii) any successful call preserves
every existing cache entry, so the memoization persists across
interleaved calls for other locales; (iii) a call whose locale code is
not yet cached and whose resolved model path is absent from the
filesystem fails with the path-not-found error of src line 90. -/
theorem model_cache_memoizes :
    (∀ (fs : String → Bool) (st st2 : CacheState) (c : String) (m : Model)
        (b : Bool), getVoskModel fs st c = Except.ok (m, st2, b) →
        ∀ fs2 : String → Bool,
          getVoskModel fs2 st2 c = Except.ok (m, st2, false))
    ∧ (∀ (fs : String → Bool) (st st2 : CacheState) (c c2 : String)
        (m : Model) (m2 : Model) (b : Bool),
        getVoskModel fs st c2 = Except.ok (m2, st2, b) →
        st.models.lookup c = some m → st2.models.lookup c = some m)
    ∧ (∀ (fs : String → Bool) (st : CacheState) (c p : String),
        st.models.lookup c = none → VOSK_MODELS.lookup c = some p →
        fs p = false →
        getVoskModel fs st c = Except.error ("Model path not found: " ++ p)) := by
  refine ⟨?_, ?_, ?_⟩
  · intro fs st st2 c m b h fs2
    simp only [getVoskModel] at h ⊢
    cases hvm : VOSK_MODELS.lookup c with
    | none =>
      simp only [hvm] at h
      exact absurd h (by simp)
    | some p =>
      simp only [hvm] at h ⊢
      cases hcache : st.models.lookup c with
      | some m0 =>
        simp only [hcache, Except.ok.injEq, Prod.mk.injEq] at h
        obtain ⟨hm, hst2, _⟩ := h
        subst hm
        subst hst2
        simp only [hcache]
      | none =>
        simp only [hcache] at h
        by_cases hfs : fs p = true
        · simp only [hfs, if_true, Except.ok.injEq, Prod.mk.injEq] at h
          obtain ⟨hm, hst2, _⟩ := h
          subst hm
          subst hst2
          rw [lookup_append_of_none _ _ _ hcache]
          simp [List.lookup]
        · simp only [hfs, if_false, Bool.false_eq_true] at h
          exact absurd h (by simp)
  · intro fs st st2 c c2 m m2 b h hcache
    simp only [getVoskModel] at h
    cases hvm : VOSK_MODELS.lookup c2 with
    | none =>
      simp only [hvm] at h
      exact absurd h (by simp)
    | some p =>
      simp only [hvm] at h
      cases hc2 : st.models.lookup c2 with
      | some m0 =>
        simp only [hc2, Except.ok.injEq, Prod.mk.injEq] at h
        obtain ⟨_, hst2, _⟩ := h
        subst hst2
        exact hcache
      | none =>
        simp only [hc2] at h
        by_cases hfs : fs p = true
        · simp only [hfs, if_true, Except.ok.injEq, Prod.mk.injEq] at h
          obtain ⟨_, hst2, _⟩ := h
          subst hst2
          exact lookup_append_of_some _ _ _ _ hcache
        · simp only [hfs, if_false, Bool.false_eq_true] at h
          exact absurd h (by simp)
  · intro fs st c p hcache hvm hfs
    simp only [getVoskModel, hvm, hcache, hfs]
    simp

/-- The en-US model instance as loaded by the first call from an empty
cache. -/
def enUsModel0 : Model := ⟨"/app/models/vosk-model-small-en-us-0.15", 0⟩

/-- The cache after one successful en-US load from the empty cache. -/
def cacheAfterEnUs : CacheState := ⟨[("en-US", enUsModel0)], 1⟩

/-- C5 counterexample to the claim as stated: after one successful
en-US call, a call made while the model path is absent from the
filesystem (fsExists constantly false) still succeeds from the cache,
because the path check of src line 89 runs only on a cache miss. -/
theorem model_cache_hit_skips_path_check :
    getVoskModel (fun _ => true) emptyCache "en-US" =
        Except.ok (enUsModel0, cacheAfterEnUs, true)
    ∧ getVoskModel (fun _ => false) cacheAfterEnUs "en-US" =
        Except.ok (enUsModel0, cacheAfterEnUs, false) :=
  ⟨rfl, rfl⟩

/-- C5 witness: on the empty cache with every filesystem path absent,
the en-US call fails with the path-not-found error. -/
theorem model_cache_memoizes_witness :
    getVoskModel (fun _ => false) emptyCache "en-US" =
      Except.error
        ("Model path not found: " ++ "/app/models/vosk-model-small-en-us-0.15") :=
  model_cache_memoizes.2.2 (fun _ => false) emptyCache "en-US"
    "/app/models/vosk-model-small-en-us-0.15" rfl rfl rfl

/-- An environment whose audio codec fails to decode the input
(convert_audio_to_wav returns False). -/
def envConvertFail : Env Unit :=
  { convertOk := false, recordAudio := Except.ok [],
    fsExists := fun _ => true, decoder := silentDecoder }

/-- An environment where conversion succeeds but loading the converted
WAV with speech_recognition raises (src lines 183-186). -/
def envRecordRaises : Env Unit :=
  { convertOk := true,
    recordAudio := Except.error "Audio file could not be read as PCM WAV audio data",
    fsExists := fun _ => true, decoder := silentDecoder }

/-- A fully healthy environment around a decoder that hears nothing. -/
def envOkAudio : Env Unit :=
  { convertOk := true, recordAudio := Except.ok [],
    fsExists := fun _ => true, decoder := silentDecoder }

/-- C2: transcribe_audio is a total function of the modelled effects
(every raise site of src lines 173-230 lies inside the outer try whose
handler stores the message and falls through to the single return), and
every failed result carries a non-null error string. -/
theorem failure_captured_in_result (env : Env σ) (st : CacheState)
    (path lang : String)
    (h : (transcribeAudio env st path lang).result.success = false) :
    ∃ e, (transcribeAudio env st path lang).result.error = some e :=
  (transcribeAudio_invariants env st path lang).1 h

/-- C2 witness: a failed WAV conversion yields a captured error. -/
theorem failure_captured_in_result_witness :
    ∃ e, (transcribeAudio envConvertFail emptyCache "talk.mp3"
      "english").result.error = some e :=
  failure_captured_in_result envConvertFail emptyCache "talk.mp3" "english" rfl

/-- C3 witness: a decoder that emits nothing produces the no-speech
failure. -/
theorem no_speech_distinct_error_witness :
    transcribeWithVosk silentDecoder [] =
      Except.error "Vosk recognition error: No speech detected in audio" :=
  (no_speech_distinct_error Unit).1 silentDecoder [] rfl

/-- C6 is refuted by the code: for a non-WAV input whose conversion
succeeds, an exception while loading the converted WAV (src lines
183-186) jumps to the handler at src line 228, skipping the cleanup of
src lines 224-226, so the temporary canonical WAV file persists after
the call returns. -/
theorem temp_wav_leak_on_record_error :
    (transcribeAudio envRecordRaises emptyCache "talk.mp3"
      "english").tempWavCreated = true
    ∧ (transcribeAudio envRecordRaises emptyCache "talk.mp3"
        "english").tempWavDeleted = false
    ∧ (transcribeAudio envRecordRaises emptyCache "talk.mp3"
        "english").result.success = false :=
  ⟨rfl, rfl, rfl⟩

/-- C7 counterexample to the claim as stated: with language french but
an input whose WAV conversion fails, the result reports the conversion
failure (src lines 178-180) before the language check of src line 193
is ever reached: the error does not name the language and no
supported-language list is attached. -/
theorem unsupported_language_masked_by_decode_failure :
    (transcribeAudio envConvertFail emptyCache "talk.mp3"
      "french").result.success = false
    ∧ (transcribeAudio envConvertFail emptyCache "talk.mp3"
        "french").result.error = some "Failed to convert audio to WAV format"
    ∧ (transcribeAudio envConvertFail emptyCache "talk.mp3"
        "french").result.supportedLanguages = none :=
  ⟨rfl, rfl, rfl⟩

/-- C7 as amended: for a language outside the supported set
(case-insensitively), provided the input decodes (already WAV or
conversion succeeds, and the WAV loads), the result has success =
false, the error message of src line 194 naming the language, and
exactly the supported-language list [spanish, english, auto]. -/
theorem unsupported_language_reported (env : Env σ) (st : CacheState)
    (path lang : String)
    (hlang : LANGUAGE_MAPPING.lookup (pyLower lang) = none)
    (hconv : pathIsWav path = true ∨ env.convertOk = true)
    (bytes : List Nat) (hrec : env.recordAudio = Except.ok bytes) :
    (transcribeAudio env st path lang).result.success = false
    ∧ (transcribeAudio env st path lang).result.error =
        some (unsupportedLanguageMsg lang)
    ∧ (transcribeAudio env st path lang).result.supportedLanguages =
        some ["spanish", "english", "auto"] := by
  have hc : ¬ (¬ pathIsWav path = true ∧ env.convertOk = false) := by
    rcases hconv with h | h <;> simp [h]
  simp only [transcribeAudio]
  rw [if_neg hc]
  simp only [hrec, hlang]
  simp [initResult]

/-- C7 amended witness: language french on a healthy WAV input. -/
theorem unsupported_language_reported_witness :
    (transcribeAudio envOkAudio emptyCache "talk.wav"
      "french").result.supportedLanguages =
      some ["spanish", "english", "auto"] :=
  (unsupported_language_reported envOkAudio emptyCache "talk.wav" "french"
    rfl (Or.inr rfl) [] rfl).2.2

/-- C8: a failed result renders the failure notice of src lines 478-480
carrying result.error, and the document contains neither the flat
transcript paragraph of src line 471 nor any speaker-segment block of
src lines 440-451. -/
theorem failed_report_contains_error (r : TResult)
    (originalFilename now : String) (h : r.success = false) :
    Block.failureNotice (r.error.getD "Unknown error") ∈
        createWordDocument r originalFilename now
    ∧ (∀ e, r.error = some e →
        Block.failureNotice e ∈ createWordDocument r originalFilename now)
    ∧ (∀ t, Block.transcriptText t ∉ createWordDocument r originalFilename now)
    ∧ (∀ s q1 q2 q3, Block.speakerHeader s q1 q2 q3 ∉
        createWordDocument r originalFilename now) := by
  simp only [createWordDocument, h, Bool.false_eq_true, if_false]
  refine ⟨by simp, fun e he => by simp [he], fun t => by simp,
    fun s q1 q2 q3 => by simp⟩

/-- A failed result carrying an error message. -/
def failedResult : TResult := { initResult with error := some "boom" }

/-- C8 witness: the failure notice carries the error text of a concrete
failed result. -/
theorem failed_report_contains_error_witness :
    Block.failureNotice "boom" ∈
      createWordDocument failedResult "talk.mp3" "2026-10-12 09:00:00" :=
  (failed_report_contains_error failedResult "talk.mp3"
    "2026-10-12 09:00:00" rfl).2.1 "boom" rfl

/-- C9: an uploaded file (part present, non-empty name) strictly larger
than 25MB is rejected with HTTP 400 and the oversize message of src
line 527, before converter.transcribe_audio is invoked (second
component false); the message begins with the words File too large. -/
theorem oversize_rejected_without_pipeline (env : Env σ) (st : CacheState)
    (now : String) (req : UploadRequest) (hfile : req.hasFile = true)
    (hname : req.filename ≠ "") (hsize : req.fileSize > 25 * 1024 * 1024) :
    convertAudio env st now req =
      (ConvertResponse.jsonError 400 fileTooLargeMsg, false)
    ∧ fileTooLargeMsg.data.take 14 = "File too large".data := by
  refine ⟨?_, rfl⟩
  simp only [convertAudio, MAX_UPLOAD_BYTES]
  rw [if_neg (by simp [hfile]), if_neg hname, if_pos hsize]

/-- A 30MB upload request. -/
def bigUpload : UploadRequest :=
  ⟨true, "big.mp3", 30 * 1024 * 1024, some "english"⟩

/-- C9 witness: the 30MB request is rejected without invoking the
pipeline. -/
theorem oversize_rejected_without_pipeline_witness :
    convertAudio envOkAudio emptyCache "2026-10-12" bigUpload =
      (ConvertResponse.jsonError 400 fileTooLargeMsg, false) :=
  (oversize_rejected_without_pipeline envOkAudio emptyCache "2026-10-12"
    bigUpload rfl (by decide) (by decide)).1
